import Mathlib

/-!
Shallow embedding of the Bolt driver session module (neo4j/session.py):
the request-pipelining / response-consumption protocol of `Session.run`,
the `Transaction` state machine, the read-only `Record` abstraction and
the `BenchTest` latency instrumentation, together with theorems settling
the specification's claims about them.
-/

namespace Neo4j

/-! ### Record (session.py, class Record)

A `Record` stores ordered field names together with positional values.
The value type is a parameter: hydration (external `typesystem.hydrated`)
produces values of some native type `V`.  Python's exceptions are modelled
by `Except` results:

* `AttributeError` (`__getattr__` on an unknown field, the spec's
  FieldNotFoundError) becomes `RecError.fieldNotFound`;
* `TypeError` (`__getitem__` on a non-string non-integer index, the
  spec's IndexTypeError) becomes `RecError.indexTypeError`;
* `IndexError` (list subscript out of range) becomes
  `RecError.indexOutOfRange`.
-/

structure Record (V : Type) where
  fields : List String
  values : List V
deriving Repr, DecidableEq

/-- The kinds of index Python dispatches on in `Record.__getitem__`:
a string (name lookup), an integer (positional lookup, negative values
allowed), or anything else (e.g. a float such as 2.5). -/
inductive RecIndex where
  | name (s : String)
  | pos (i : Int)
  | other
deriving Repr, DecidableEq

inductive RecError where
  | fieldNotFound (s : String)
  | indexTypeError
  | indexOutOfRange
deriving Repr, DecidableEq

/-- Python list subscript `xs[i]`: a negative index counts from the end
(`i + len`); an index that is still out of range raises IndexError
(modelled as `none`). -/
def pyListGet {α : Type} (xs : List α) (i : Int) : Option α :=
  if 0 ≤ i then xs[i.toNat]?
  else if 0 ≤ (xs.length : Int) + i then xs[((xs.length : Int) + i).toNat]?
  else none

/-- `Record.__getattr__`: `self.__fields__.index(item)` (first occurrence),
then `self.__values__[i]`; a name absent from the fields raises
AttributeError. -/
def Record.getattr {V : Type} (r : Record V) (item : String) : Except RecError V :=
  match r.fields.findIdx? (fun x => x == item) with
  | none => .error (.fieldNotFound item)
  | some i =>
    match r.values[i]? with
    | none => .error .indexOutOfRange
    | some v => .ok v

/-- `Record.__getitem__`: a string delegates to `getattr`; an integer
first resolves `self.__fields__[item]` (Python indexing, negatives
allowed) and delegates the resulting name to `getattr`; any other index
type raises TypeError. -/
def Record.getitem {V : Type} (r : Record V) (item : RecIndex) : Except RecError V :=
  match item with
  | .name s => r.getattr s
  | .pos i =>
    match pyListGet r.fields i with
    | none => .error .indexOutOfRange
    | some f => r.getattr f
  | .other => .error .indexTypeError

/-- `Record.__len__` is the field count. -/
def Record.len {V : Type} (r : Record V) : Nat :=
  r.fields.length

/-! Helper lemmas about first-occurrence lookup. -/

theorem findIdx?_eq_none_of_not_mem {l : List String} {s : String}
    (h : s ∉ l) : l.findIdx? (fun x => x == s) = none := by
  induction l with
  | nil => rfl
  | cons x xs ih =>
    have hx : x ≠ s := fun hxs => h (hxs ▸ List.mem_cons_self x xs)
    have hxs : s ∉ xs := fun hm => h (List.mem_cons_of_mem _ hm)
    simp [List.findIdx?_cons, beq_iff_eq, hx, ih hxs]

theorem findIdx?_eq_of_nodup {l : List String} {i : Nat} {s : String}
    (hnd : l.Nodup) (h : l[i]? = some s) :
    l.findIdx? (fun x => x == s) = some i := by
  induction l generalizing i with
  | nil => simp at h
  | cons x xs ih =>
    rcases List.nodup_cons.mp hnd with ⟨hx, hxs⟩
    cases i with
    | zero =>
      simp only [List.getElem?_cons_zero, Option.some.injEq] at h
      simp [List.findIdx?_cons, beq_iff_eq, h]
    | succ n =>
      simp only [List.getElem?_cons_succ] at h
      have hmem : s ∈ xs := List.getElem?_mem h
      have hne : x ≠ s := fun hxe => hx (hxe ▸ hmem)
      simp [List.findIdx?_cons, beq_iff_eq, hne, ih hxs h]

/-! ### Session.run pipeline (session.py, Session.run)

The connection is external: for one `run` call, the server's behaviour
is a `ServerReply` — the message delivered to the run-response (SUCCESS
with a field list, or FAILURE), the raw record messages delivered to the
pull-response in arrival order, and the pull-response's terminal message
(SUCCESS footer or FAILURE).  `Session.runModel` translates the body of
`Session.run` line by line: the raised `CypherError("FAILURE")` becomes
`Except.error QueryError.cypherFailure`, and the connection interaction
is logged as a trace of events in execution order (`append(RUN)`,
`append(PULL_ALL)`, `send()`, `run_response.consume()`,
`pull_all_response.consume()`). -/

inductive HeaderMsg where
  | success (fields : List String)
  | failure
deriving Repr, DecidableEq

inductive FooterMsg where
  | success
  | failure
deriving Repr, DecidableEq

structure ServerReply (R : Type) where
  header : HeaderMsg
  records : List (List R)
  footer : FooterMsg
deriving Repr, DecidableEq

inductive ConnEvent where
  | appendRun
  | appendPull
  | send
  | consumeRun
  | consumePull
deriving Repr, DecidableEq

inductive QueryError where
  | cypherFailure
deriving Repr, DecidableEq

instance {E A : Type} [DecidableEq E] [DecidableEq A] : DecidableEq (Except E A)
  | .error e, .error f =>
    if h : e = f then .isTrue (by rw [h]) else .isFalse (by simp [h])
  | .error _, .ok _ => .isFalse (by simp)
  | .ok _, .error _ => .isFalse (by simp)
  | .ok a, .ok b =>
    if h : a = b then .isTrue (by rw [h]) else .isFalse (by simp [h])

/-- `Session.run`: append the RUN request bound to the run-response, append
the PULL_ALL request bound to the pull-response, send once, consume the
run-response, then consume the pull-response.  `on_header` captures the
field list, `on_record` appends `Record(fields, tuple(map(hydrated,
values)))` in arrival order, `on_failure` raises — so a header failure
ends the call during the first consume, a footer failure during the
second, and only a doubly-successful reply returns the records. -/
def Session.runModel {R V : Type} (hyd : R → V) (reply : ServerReply R) :
    List ConnEvent × Except QueryError (List (Record V)) :=
  match reply.header with
  | .failure =>
    ([.appendRun, .appendPull, .send, .consumeRun], .error .cypherFailure)
  | .success fields =>
    match reply.footer with
    | .failure =>
      ([.appendRun, .appendPull, .send, .consumeRun, .consumePull],
       .error .cypherFailure)
    | .success =>
      ([.appendRun, .appendPull, .send, .consumeRun, .consumePull],
       .ok (reply.records.map (fun vs => Record.mk fields (vs.map hyd))))

/-! ### BenchTest / Latency (session.py, class BenchTest)

Timestamps are `perf_counter()` readings, modelled as rationals. -/

structure BenchTest where
  init : ℚ
  start_send : ℚ
  end_send : ℚ
  start_recv : ℚ
  end_recv : ℚ
  done : ℚ
deriving Repr, DecidableEq

structure Latency where
  overall : ℚ
  network : ℚ
  wait : ℚ
deriving Repr, DecidableEq

/-- `BenchTest.latency`: `Latency(done - init, end_recv - start_send,
start_recv - end_send)`. -/
def BenchTest.latency (t : BenchTest) : Latency :=
  ⟨t.done - t.init, t.end_recv - t.start_send, t.start_recv - t.end_send⟩

/-- The timestamp ordering `init ≤ start_send ≤ end_send ≤ start_recv ≤
end_recv ≤ done` holding for a successful `run()`. -/
def BenchTest.ordered (t : BenchTest) : Prop :=
  t.init ≤ t.start_send ∧ t.start_send ≤ t.end_send ∧
  t.end_send ≤ t.start_recv ∧ t.start_recv ≤ t.end_recv ∧
  t.end_recv ≤ t.done

instance (t : BenchTest) : Decidable t.ordered := by
  unfold BenchTest.ordered
  infer_instance

/-! ### Transaction state machine (session.py, Session.new_transaction
and class Transaction)

A `SessionS` holds the `transaction` slot (index into the list of
transactions created so far), the per-transaction `success`/`closed`
flags, and the log of statements executed through `Session.run` by the
transaction layer (`BEGIN`, `COMMIT`, `ROLLBACK`, and the statements of
`Transaction.run`).  Python's `assert` failures (AssertionError, the
spec's InvariantViolationError) become `Except.error`.  Each operation
returns the post-state together with the outcome, so a mutation made
before a failing assert persists — exactly as in Python, where
`self.success = True` has already happened when `close()` raises. -/

structure TxS where
  success : Bool
  closed : Bool
deriving Repr, DecidableEq

structure SessionS where
  transaction : Option Nat
  txs : List TxS
  statements : List String
deriving Repr, DecidableEq

/-- The session as built by `Session.__init__`: no transaction, no
transactions created, nothing run. -/
def SessionS.initial : SessionS :=
  ⟨none, [], []⟩

inductive TxError where
  | invariantViolation
deriving Repr, DecidableEq

/-- `Session.new_transaction`: `assert not self.transaction`, then
construct the Transaction (whose `__init__` runs `BEGIN`; `success` and
`closed` default to false), then store it in the slot.  Returns the index
of the new transaction. -/
def SessionS.newTransaction (s : SessionS) : SessionS × Except TxError Nat :=
  match s.transaction with
  | some _ => (s, .error .invariantViolation)
  | none =>
    let i := s.txs.length
    ({ s with
        transaction := some i
        txs := s.txs ++ [⟨false, false⟩]
        statements := s.statements ++ ["BEGIN"] },
     .ok i)

/-- `Transaction.run`: `assert not self.closed`, then delegate to
`session.run` (logged as a statement). -/
def SessionS.txRun (s : SessionS) (i : Nat) (stmt : String) :
    SessionS × Except TxError Unit :=
  match s.txs[i]? with
  | none => (s, .error .invariantViolation)
  | some tx =>
    if tx.closed then (s, .error .invariantViolation)
    else ({ s with statements := s.statements ++ [stmt] }, .ok ())

/-- The assignment `self.success = b` on transaction `i`. -/
def SessionS.setSuccess (s : SessionS) (i : Nat) (b : Bool) : SessionS :=
  match s.txs[i]? with
  | none => s
  | some tx => { s with txs := s.txs.set i { tx with success := b } }

/-- `Transaction.close`: `assert not self.closed`; run `COMMIT` if
`success` else `ROLLBACK`; set `closed`; clear the session's transaction
slot. -/
def SessionS.txClose (s : SessionS) (i : Nat) : SessionS × Except TxError Unit :=
  match s.txs[i]? with
  | none => (s, .error .invariantViolation)
  | some tx =>
    if tx.closed then (s, .error .invariantViolation)
    else
      ({ s with
          transaction := none
          txs := s.txs.set i { tx with closed := true }
          statements := s.statements ++ [cond tx.success ("COMMIT") ("ROLLBACK")] },
       .ok ())

/-- `Transaction.commit`: `self.success = True` then `self.close()`. -/
def SessionS.txCommit (s : SessionS) (i : Nat) : SessionS × Except TxError Unit :=
  (s.setSuccess i true).txClose i

/-- `Transaction.rollback`: `self.success = False` then `self.close()`. -/
def SessionS.txRollback (s : SessionS) (i : Nat) : SessionS × Except TxError Unit :=
  (s.setSuccess i false).txClose i

/-- A client operation on the session's transaction layer. -/
inductive TxOp where
  | newTx
  | run (i : Nat) (stmt : String)
  | commit (i : Nat)
  | rollback (i : Nat)
  | close (i : Nat)
deriving Repr, DecidableEq

/-- The state reached by an operation, discarding the outcome (on an
assert failure the pre-assert mutations persist). -/
def SessionS.applyOp (s : SessionS) (op : TxOp) : SessionS :=
  match op with
  | .newTx => s.newTransaction.1
  | .run i stmt => (s.txRun i stmt).1
  | .commit i => (s.txCommit i).1
  | .rollback i => (s.txRollback i).1
  | .close i => (s.txClose i).1

/-- The state after a whole client interaction from a fresh session. -/
def SessionS.runOps (ops : List TxOp) : SessionS :=
  ops.foldl SessionS.applyOp SessionS.initial

/-- The slot invariant: the `transaction` slot, when occupied, names an
existing transaction that is not closed — i.e. the slot is non-empty only
between a successful `new_transaction()` and that transaction's
`close()`. -/
def SessionS.SlotInv (s : SessionS) : Prop :=
  ∀ i, s.transaction = some i → ∃ tx, s.txs[i]? = some tx ∧ tx.closed = false

/-! Preservation of the slot invariant by each operation. -/

theorem SessionS.slotInv_initial : SessionS.initial.SlotInv := by
  intro i h
  simp [SessionS.initial] at h

theorem SessionS.slotInv_newTransaction {s : SessionS} (h : s.SlotInv) :
    s.newTransaction.1.SlotInv := by
  cases htr : s.transaction with
  | some j =>
    simpa [SessionS.newTransaction, htr] using h
  | none =>
    intro i hi
    simp only [SessionS.newTransaction, htr] at hi ⊢
    cases hi
    exact ⟨⟨false, false⟩, List.getElem?_concat_length _ _, rfl⟩

theorem SessionS.slotInv_txRun {s : SessionS} (h : s.SlotInv) (i : Nat)
    (stmt : String) : (s.txRun i stmt).1.SlotInv := by
  unfold SessionS.txRun
  cases hg : s.txs[i]? with
  | none => simpa using h
  | some tx =>
    by_cases hc : tx.closed = true
    · simpa [hg, hc] using h
    · intro j hj
      simp only [hg, hc, if_neg] at hj ⊢
      simp at hj
      exact h j hj

theorem SessionS.slotInv_setSuccess {s : SessionS} (h : s.SlotInv) (i : Nat)
    (b : Bool) : (s.setSuccess i b).SlotInv := by
  unfold SessionS.setSuccess
  cases hg : s.txs[i]? with
  | none => exact h
  | some tx =>
    intro j hj
    simp only at hj
    obtain ⟨tx', htx', hcl⟩ := h j hj
    by_cases hij : i = j
    · subst hij
      have hlt : i < s.txs.length := (List.getElem?_eq_some.mp hg).1
      refine ⟨{ tx with success := b }, ?_, ?_⟩
      · simpa using List.getElem?_set_self hlt
      · have : tx' = tx := by rw [hg] at htx'; exact (Option.some_inj.mp htx').symm
        exact this ▸ hcl
    · exact ⟨tx', by simpa [List.getElem?_set_ne hij] using htx', hcl⟩

theorem SessionS.slotInv_txClose {s : SessionS} (h : s.SlotInv) (i : Nat) :
    (s.txClose i).1.SlotInv := by
  unfold SessionS.txClose
  cases hg : s.txs[i]? with
  | none => simpa using h
  | some tx =>
    by_cases hc : tx.closed = true
    · simpa [hc] using h
    · intro j hj
      simp [hc] at hj

theorem SessionS.slotInv_applyOp {s : SessionS} (h : s.SlotInv) (op : TxOp) :
    (s.applyOp op).SlotInv := by
  cases op with
  | newTx => exact slotInv_newTransaction h
  | run i stmt => exact slotInv_txRun h i stmt
  | commit i => exact slotInv_txClose (slotInv_setSuccess h i true) i
  | rollback i => exact slotInv_txClose (slotInv_setSuccess h i false) i
  | close i => exact slotInv_txClose h i

theorem SessionS.slotInv_runOps (ops : List TxOp) :
    (SessionS.runOps ops).SlotInv := by
  unfold SessionS.runOps
  generalize hinit : SessionS.initial = s0
  have h0 : s0.SlotInv := hinit ▸ SessionS.slotInv_initial
  clear hinit
  induction ops generalizing s0 with
  | nil => exact h0
  | cons op ops ih => exact ih _ (SessionS.slotInv_applyOp h0 op)

/-! Helper lemmas about closing transactions. -/

theorem SessionS.setSuccess_some {s : SessionS} {i : Nat} {tx : TxS}
    (htx : s.txs[i]? = some tx) (b : Bool) :
    s.setSuccess i b = { s with txs := s.txs.set i { tx with success := b } } := by
  simp [SessionS.setSuccess, htx]

theorem SessionS.txClose_open {s : SessionS} {i : Nat} {tx : TxS}
    (htx : s.txs[i]? = some tx) (hcl : tx.closed = false) :
    s.txClose i =
      ({ s with
          transaction := none
          txs := s.txs.set i { tx with closed := true }
          statements := s.statements ++ [cond tx.success ("COMMIT") ("ROLLBACK")] },
       .ok ()) := by
  simp [SessionS.txClose, htx, hcl]

theorem SessionS.txClose_closed {s : SessionS} {i : Nat} {tx : TxS}
    (htx : s.txs[i]? = some tx) (hcl : tx.closed = true) :
    s.txClose i = (s, .error .invariantViolation) := by
  simp [SessionS.txClose, htx, hcl]

/-! ### The claims -/

/-- Claim C1: for a successful `Session.run` (header success, footer
success) against a well-formed record stream, the returned list has one
`Record` per record message in arrival order; each `Record` carries the
header's field-name list, and its value at each position is `hydrated`
applied to the raw value at that position, so every record's value count
matches its field count. -/
theorem run_records_correct {R V : Type} (hyd : R → V) (reply : ServerReply R)
    (fields : List String)
    (hh : reply.header = HeaderMsg.success fields)
    (hf : reply.footer = FooterMsg.success)
    (hwf : ∀ vs ∈ reply.records, vs.length = fields.length) :
    ∃ rs : List (Record V),
      (Session.runModel hyd reply).2 = .ok rs ∧
      rs.length = reply.records.length ∧
      (∀ (n : Nat) (vs : List R), reply.records[n]? = some vs →
        ∃ r : Record V, rs[n]? = some r ∧ r.fields = fields ∧
          (∀ j : Nat, r.values[j]? = Option.map hyd vs[j]?) ∧
          r.values.length = r.fields.length) := by
  refine ⟨reply.records.map (fun vs => Record.mk fields (vs.map hyd)), ?_, by simp, ?_⟩
  · simp [Session.runModel, hh, hf]
  · intro n vs hvs
    refine ⟨Record.mk fields (vs.map hyd), ?_, rfl, ?_, ?_⟩
    · simp [hvs]
    · intro j
      simp
    · simpa using hwf vs (List.getElem?_mem hvs)

/-- Concrete run for the witnesses: header `{fields: [x, y]}`, two record
messages, successful footer, hydration `Nat.succ`. -/
def sampleReply : ServerReply Nat :=
  ⟨HeaderMsg.success (["x", "y"]), [[1, 2], [3, 4]], FooterMsg.success⟩

/-- Witness for C1 at a concrete reply. -/
theorem run_records_correct_witness :
    ∃ rs : List (Record Nat),
      (Session.runModel Nat.succ sampleReply).2 = .ok rs ∧
      rs.length = sampleReply.records.length ∧
      (∀ (n : Nat) (vs : List Nat), sampleReply.records[n]? = some vs →
        ∃ r : Record Nat, rs[n]? = some r ∧ r.fields = (["x", "y"]) ∧
          (∀ j : Nat, r.values[j]? = Option.map Nat.succ vs[j]?) ∧
          r.values.length = r.fields.length) :=
  run_records_correct Nat.succ sampleReply (["x", "y"]) rfl rfl (by decide)

/-- Claim C2: if the server signals failure for either the
query-execution request (run-response) or the result-stream request
(pull-response), `run()` raises the query-failure error from within the
failing response's consume — in particular, on a run-response failure
the call unwinds before ever touching the pull-response — and the call
returns no records. -/
theorem run_failure_raises {R V : Type} (hyd : R → V) (reply : ServerReply R)
    (h : reply.header = HeaderMsg.failure ∨ reply.footer = FooterMsg.failure) :
    (Session.runModel hyd reply).2 = .error .cypherFailure ∧
    (reply.header = HeaderMsg.failure →
      (Session.runModel hyd reply).1 =
        [ConnEvent.appendRun, ConnEvent.appendPull, ConnEvent.send,
          ConnEvent.consumeRun]) := by
  cases hh : reply.header with
  | failure => simp [Session.runModel, hh]
  | success fields =>
    cases hf : reply.footer with
    | failure => simp [Session.runModel, hh, hf]
    | success =>
      rcases h with h | h
      · rw [hh] at h; cases h
      · rw [hf] at h; cases h

/-- Witness for C2: a reply whose run-response fails. -/
theorem run_failure_raises_witness :
    (Session.runModel (fun n : Nat => n)
        ⟨HeaderMsg.failure, [], FooterMsg.success⟩).2 = .error .cypherFailure ∧
    ((⟨HeaderMsg.failure, [], FooterMsg.success⟩ : ServerReply Nat).header =
        HeaderMsg.failure →
      (Session.runModel (fun n : Nat => n)
          ⟨HeaderMsg.failure, [], FooterMsg.success⟩).1 =
        [ConnEvent.appendRun, ConnEvent.appendPull, ConnEvent.send,
          ConnEvent.consumeRun]) :=
  run_failure_raises (fun n : Nat => n) ⟨HeaderMsg.failure, [], FooterMsg.success⟩
    (Or.inl rfl)

/-- Claim C5: every `Session.run` interacts with the Connection in this
order — the first three events are exactly append(RUN), append(PULL_ALL),
send (so nothing, in particular no flush, comes between the two appends);
send occurs exactly once; the run-response is consumed exactly once,
after the send; and any consumption of the pull-response comes strictly
after the run-response's consumption (the pull-response is never touched
while the run-response is pending). -/
theorem run_connection_interaction_order {R V : Type} (hyd : R → V)
    (reply : ServerReply R) :
    (Session.runModel hyd reply).1.take 3 =
        [ConnEvent.appendRun, ConnEvent.appendPull, ConnEvent.send] ∧
    (Session.runModel hyd reply).1.count ConnEvent.send = 1 ∧
    (Session.runModel hyd reply).1.count ConnEvent.consumeRun = 1 ∧
    (Session.runModel hyd reply).1.count ConnEvent.consumePull ≤ 1 ∧
    (Session.runModel hyd reply).1.indexOf ConnEvent.send <
      (Session.runModel hyd reply).1.indexOf ConnEvent.consumeRun ∧
    (Session.runModel hyd reply).1.indexOf ConnEvent.consumeRun <
      (Session.runModel hyd reply).1.indexOf ConnEvent.consumePull := by
  cases hh : reply.header <;> cases hf : reply.footer <;>
    simp [Session.runModel, hh, hf]

/-- Claim C6 (amended): with `overall = done − init`,
`network = end_recv − start_send` and `wait = start_recv − end_send`, the
identities that actually hold are
`network = (end_send − start_send) + wait + (end_recv − start_recv)` and
`overall = (start_send − init) + network + (done − end_recv)`; the
claimed `overall = (end_send − start_send) + wait + network` is false in
general. -/
theorem benchTest_latency_decomposition (t : BenchTest) :
    t.latency.network =
      (t.end_send - t.start_send) + t.latency.wait + (t.end_recv - t.start_recv) ∧
    t.latency.overall =
      (t.start_send - t.init) + t.latency.network + (t.done - t.end_recv) := by
  constructor <;> simp [BenchTest.latency]

/-- Counterexample for C6 as stated: the timestamps (0, 1, 2, 3, 4, 100)
are ordered, yet `overall = 100` while
`(end_send − start_send) + wait + network = 1 + 1 + 3 = 5`. -/
theorem benchTest_latency_identity_counterexample :
    (BenchTest.mk 0 1 2 3 4 100).ordered ∧
    (BenchTest.mk 0 1 2 3 4 100).latency.overall ≠
      ((BenchTest.mk 0 1 2 3 4 100).end_send -
          (BenchTest.mk 0 1 2 3 4 100).start_send) +
        (BenchTest.mk 0 1 2 3 4 100).latency.wait +
        (BenchTest.mk 0 1 2 3 4 100).latency.network := by
  constructor
  · norm_num [BenchTest.ordered]
  · norm_num [BenchTest.latency]

theorem SessionS.txRun_closed {s : SessionS} {i : Nat} {tx : TxS}
    (htx : s.txs[i]? = some tx) (hcl : tx.closed = true) (stmt : String) :
    s.txRun i stmt = (s, .error .invariantViolation) := by
  simp [SessionS.txRun, htx, hcl]

theorem SessionS.txCommit_open {s : SessionS} {i : Nat} {tx : TxS}
    (htx : s.txs[i]? = some tx) (hcl : tx.closed = false) :
    s.txCommit i =
      ({ s with
          transaction := none
          txs := s.txs.set i ⟨true, true⟩
          statements := s.statements ++ [("COMMIT")] },
       .ok ()) := by
  have hlt : i < s.txs.length := (List.getElem?_eq_some.mp htx).1
  have hget : (s.txs.set i { tx with success := true })[i]? =
      some { tx with success := true } := List.getElem?_set_self hlt
  have hcl2 : ({ tx with success := true } : TxS).closed = false := hcl
  unfold SessionS.txCommit
  rw [SessionS.setSuccess_some htx true, SessionS.txClose_open hget hcl2]
  simp [List.set_set]

theorem SessionS.txRollback_open {s : SessionS} {i : Nat} {tx : TxS}
    (htx : s.txs[i]? = some tx) (hcl : tx.closed = false) :
    s.txRollback i =
      ({ s with
          transaction := none
          txs := s.txs.set i ⟨false, true⟩
          statements := s.statements ++ [("ROLLBACK")] },
       .ok ()) := by
  have hlt : i < s.txs.length := (List.getElem?_eq_some.mp htx).1
  have hget : (s.txs.set i { tx with success := false })[i]? =
      some { tx with success := false } := List.getElem?_set_self hlt
  have hcl2 : ({ tx with success := false } : TxS).closed = false := hcl
  unfold SessionS.txRollback
  rw [SessionS.setSuccess_some htx false, SessionS.txClose_open hget hcl2]
  simp [List.set_set]

theorem SessionS.txCommit_closed {s : SessionS} {i : Nat} {tx : TxS}
    (htx : s.txs[i]? = some tx) (hcl : tx.closed = true) :
    s.txCommit i =
      ({ s with txs := s.txs.set i { tx with success := true } },
       .error .invariantViolation) := by
  have hlt : i < s.txs.length := (List.getElem?_eq_some.mp htx).1
  have hget : (s.txs.set i { tx with success := true })[i]? =
      some { tx with success := true } := List.getElem?_set_self hlt
  have hcl2 : ({ tx with success := true } : TxS).closed = true := hcl
  unfold SessionS.txCommit
  rw [SessionS.setSuccess_some htx true]
  exact SessionS.txClose_closed hget hcl2

theorem SessionS.txRollback_closed {s : SessionS} {i : Nat} {tx : TxS}
    (htx : s.txs[i]? = some tx) (hcl : tx.closed = true) :
    s.txRollback i =
      ({ s with txs := s.txs.set i { tx with success := false } },
       .error .invariantViolation) := by
  have hlt : i < s.txs.length := (List.getElem?_eq_some.mp htx).1
  have hget : (s.txs.set i { tx with success := false })[i]? =
      some { tx with success := false } := List.getElem?_set_self hlt
  have hcl2 : ({ tx with success := false } : TxS).closed = true := hcl
  unfold SessionS.txRollback
  rw [SessionS.setSuccess_some htx false]
  exact SessionS.txClose_closed hget hcl2

/-- Claim C3: the transaction slot is non-empty only between a successful
`new_transaction()` and that transaction's `close()` (the slot invariant
holds in every state reachable by a client interaction from a fresh
session); `new_transaction()` on a session whose slot is occupied fails
with the invariant-violation error and leaves the session — the original
transaction included — unchanged; and after a successful
`Transaction.rollback()` the slot is empty, so a subsequent
`new_transaction()` succeeds. -/
theorem transaction_slot_lifecycle :
    (∀ (s : SessionS) (j : Nat), s.transaction = some j →
        s.newTransaction = (s, Except.error TxError.invariantViolation)) ∧
    (∀ (s : SessionS) (i : Nat) (tx : TxS),
        s.txs[i]? = some tx → tx.closed = false →
        (s.txRollback i).2 = Except.ok () ∧
        (s.txRollback i).1.transaction = none ∧
        ∃ k : Nat, ((s.txRollback i).1.newTransaction).2 = Except.ok k) ∧
    (∀ ops : List TxOp, (SessionS.runOps ops).SlotInv) := by
  refine ⟨?_, ?_, SessionS.slotInv_runOps⟩
  · intro s j h
    simp [SessionS.newTransaction, h]
  · intro s i tx htx hcl
    rw [SessionS.txRollback_open htx hcl]
    exact ⟨rfl, rfl, _, rfl⟩

/-- Claim C4 (amended): after `commit()` completes on an open
transaction, every subsequent `run`/`commit`/`rollback`/`close` on that
transaction fails with the invariant-violation error and the transaction
stays closed; however `commit`/`rollback` still overwrite the success
flag before the guard in `close()` fires, so the closed transaction's
state is not fully preserved by the failing calls. -/
theorem transaction_terminal_after_commit (s : SessionS) (i : Nat) (tx : TxS)
    (stmt : String) (htx : s.txs[i]? = some tx) (hopen : tx.closed = false) :
    (s.txCommit i).2 = Except.ok () ∧
    (s.txCommit i).1.txs[i]? = some ⟨true, true⟩ ∧
    ((s.txCommit i).1.txRun i stmt).2 = Except.error TxError.invariantViolation ∧
    ((s.txCommit i).1.txCommit i).2 = Except.error TxError.invariantViolation ∧
    ((s.txCommit i).1.txRollback i).2 = Except.error TxError.invariantViolation ∧
    ((s.txCommit i).1.txClose i).2 = Except.error TxError.invariantViolation ∧
    Option.map TxS.closed (((s.txCommit i).1.txRun i stmt).1.txs[i]?) = some true ∧
    Option.map TxS.closed (((s.txCommit i).1.txCommit i).1.txs[i]?) = some true ∧
    Option.map TxS.closed (((s.txCommit i).1.txRollback i).1.txs[i]?) = some true ∧
    Option.map TxS.closed (((s.txCommit i).1.txClose i).1.txs[i]?) = some true := by
  have hlt : i < s.txs.length := (List.getElem?_eq_some.mp htx).1
  rw [SessionS.txCommit_open htx hopen]
  have hs1 :
      ({ s with
          transaction := none
          txs := s.txs.set i ⟨true, true⟩
          statements := s.statements ++ [("COMMIT")] } : SessionS).txs[i]?
        = some ⟨true, true⟩ := by
    simpa using List.getElem?_set_self (l := s.txs) (a := (⟨true, true⟩ : TxS)) hlt
  have hlt1 :
      i < ({ s with
              transaction := none
              txs := s.txs.set i ⟨true, true⟩
              statements := s.statements ++ [("COMMIT")] } : SessionS).txs.length :=
    (List.getElem?_eq_some.mp hs1).1
  refine ⟨rfl, hs1, ?_, ?_, ?_, ?_, ?_, ?_, ?_, ?_⟩
  · rw [SessionS.txRun_closed hs1 rfl stmt]
  · rw [SessionS.txCommit_closed hs1 rfl]
  · rw [SessionS.txRollback_closed hs1 rfl]
  · rw [SessionS.txClose_closed hs1 rfl]
  · rw [SessionS.txRun_closed hs1 rfl stmt]
    simp [hs1]
  · rw [SessionS.txCommit_closed hs1 rfl]
    simp only [List.set_set]
    simp only [Option.map_eq_some']
    exact ⟨⟨true, true⟩, List.getElem?_set_self hlt, rfl⟩
  · rw [SessionS.txRollback_closed hs1 rfl]
    simp only [List.set_set]
    simp only [Option.map_eq_some']
    exact ⟨⟨false, true⟩, List.getElem?_set_self hlt, rfl⟩
  · rw [SessionS.txClose_closed hs1 rfl]
    simp [hs1]

/-- The session state right after `new_transaction()` on a fresh session:
transaction 0 is open and occupies the slot, `BEGIN` has been run. -/
def sessionAfterBegin : SessionS :=
  ⟨some 0, [⟨false, false⟩], [("BEGIN")]⟩

/-- Witness for C4 (amended) at the state after `new_transaction()`. -/
theorem transaction_terminal_after_commit_witness :
    (sessionAfterBegin.txCommit 0).2 = Except.ok () ∧
    (sessionAfterBegin.txCommit 0).1.txs[0]? = some ⟨true, true⟩ ∧
    ((sessionAfterBegin.txCommit 0).1.txRun 0 ("RETURN 1")).2 =
      Except.error TxError.invariantViolation ∧
    ((sessionAfterBegin.txCommit 0).1.txCommit 0).2 =
      Except.error TxError.invariantViolation ∧
    ((sessionAfterBegin.txCommit 0).1.txRollback 0).2 =
      Except.error TxError.invariantViolation ∧
    ((sessionAfterBegin.txCommit 0).1.txClose 0).2 =
      Except.error TxError.invariantViolation ∧
    Option.map TxS.closed
      (((sessionAfterBegin.txCommit 0).1.txRun 0 ("RETURN 1")).1.txs[0]?) = some true ∧
    Option.map TxS.closed
      (((sessionAfterBegin.txCommit 0).1.txCommit 0).1.txs[0]?) = some true ∧
    Option.map TxS.closed
      (((sessionAfterBegin.txCommit 0).1.txRollback 0).1.txs[0]?) = some true ∧
    Option.map TxS.closed
      (((sessionAfterBegin.txCommit 0).1.txClose 0).1.txs[0]?) = some true :=
  transaction_terminal_after_commit sessionAfterBegin 0 ⟨false, false⟩
    ("RETURN 1") rfl rfl

/-- Counterexample for C4 as stated: from the state reached by
`new_transaction()` then `commit()`, the subsequent `rollback()` does
raise the invariant-violation error, yet the session state after the
raise differs from the state before it (the success flag was overwritten
to false) — so it is not true that no further transition occurs. -/
theorem transaction_commit_rollback_state_change_counterexample :
    (((SessionS.mk (some 0) ([⟨false, false⟩]) ([("BEGIN")])).txCommit 0).1.txRollback 0).2 =
        Except.error TxError.invariantViolation ∧
    (((SessionS.mk (some 0) ([⟨false, false⟩]) ([("BEGIN")])).txCommit 0).1.txRollback 0).1 ≠
        ((SessionS.mk (some 0) ([⟨false, false⟩]) ([("BEGIN")])).txCommit 0).1 := by
  decide

/-- Claim C9: `commit()` or `rollback()` on an already-closed transaction
raises the invariant-violation error but is not atomic: the success flag
is overwritten (to true for commit, to false for rollback) before the
closed guard in `close()` fires, so on an already-committed transaction
(success true) the state observed after the failing `rollback()` differs
from the state before the call. -/
theorem transaction_closed_ops_not_atomic (s : SessionS) (i : Nat) (tx : TxS)
    (htx : s.txs[i]? = some tx) (hclosed : tx.closed = true)
    (hsucc : tx.success = true) :
    (s.txCommit i).2 = Except.error TxError.invariantViolation ∧
    (s.txCommit i).1.txs[i]? = some { tx with success := true } ∧
    (s.txRollback i).2 = Except.error TxError.invariantViolation ∧
    (s.txRollback i).1.txs[i]? = some { tx with success := false } ∧
    (s.txRollback i).1 ≠ s := by
  have hlt : i < s.txs.length := (List.getElem?_eq_some.mp htx).1
  rw [SessionS.txCommit_closed htx hclosed, SessionS.txRollback_closed htx hclosed]
  refine ⟨rfl, ?_, rfl, ?_, ?_⟩
  · simpa using List.getElem?_set_self hlt
  · simpa using List.getElem?_set_self hlt
  · intro heq
    have hget := congrArg (fun st : SessionS => st.txs[i]?) heq
    simp only at hget
    rw [htx] at hget
    have hset : (s.txs.set i { tx with success := false })[i]? =
        some { tx with success := false } := by
      simpa using List.getElem?_set_self hlt
    rw [hset] at hget
    have htxeq : ({ tx with success := false } : TxS) = tx := Option.some_inj.mp hget
    have : (false : Bool) = true := by
      conv_rhs => rw [← hsucc]
      rw [← htxeq]
    cases this

/-- The session state after `new_transaction()` then `commit()`:
transaction 0 is committed (success and closed both true). -/
def sessionAfterCommit : SessionS :=
  ⟨none, [⟨true, true⟩], [("BEGIN"), ("COMMIT")]⟩

/-- Witness for C9 at the state after a commit. -/
theorem transaction_closed_ops_not_atomic_witness :
    (sessionAfterCommit.txCommit 0).2 = Except.error TxError.invariantViolation ∧
    (sessionAfterCommit.txCommit 0).1.txs[0]? =
      some { (⟨true, true⟩ : TxS) with success := true } ∧
    (sessionAfterCommit.txRollback 0).2 = Except.error TxError.invariantViolation ∧
    (sessionAfterCommit.txRollback 0).1.txs[0]? =
      some { (⟨true, true⟩ : TxS) with success := false } ∧
    (sessionAfterCommit.txRollback 0).1 ≠ sessionAfterCommit :=
  transaction_closed_ops_not_atomic sessionAfterCommit 0 ⟨true, true⟩ rfl rfl rfl

/-- Name lookup on a Record with unique field names: the field at
position `i` resolves back to position `i`, and with matching value count
the stored value is returned. -/
theorem Record.getattr_of_nodup {V : Type} {r : Record V} {i : Nat} {n : String}
    (hnd : r.fields.Nodup) (hn : r.fields[i]? = some n)
    (hlen : r.values.length = r.fields.length) :
    ∃ v : V, r.values[i]? = some v ∧ r.getattr n = .ok v := by
  have hi : i < r.fields.length := (List.getElem?_eq_some.mp hn).1
  have hiv : i < r.values.length := by rw [hlen]; exact hi
  have hv : r.values[i]? = some (r.values[i]) := List.getElem?_eq_getElem hiv
  have hfind := findIdx?_eq_of_nodup hnd hn
  exact ⟨r.values[i], hv, by simp [Record.getattr, hfind, hv]⟩

/-- Claim C7: looking a Record up by a name that is not one of its field
names fails with the field-not-found error (Python AttributeError), both
through `record[name]` and attribute-style access; looking it up with an
index whose type is neither integer nor string (e.g. a float such as 2.5)
fails with the index-type error (Python TypeError). -/
theorem record_lookup_error_kinds {V : Type} (r : Record V) (s : String)
    (hs : s ∉ r.fields) :
    r.getitem (RecIndex.name s) = .error (.fieldNotFound s) ∧
    r.getattr s = .error (.fieldNotFound s) ∧
    r.getitem RecIndex.other = .error .indexTypeError := by
  have h := findIdx?_eq_none_of_not_mem hs
  exact ⟨by simp [Record.getitem, Record.getattr, h],
    by simp [Record.getattr, h], rfl⟩

/-- Witness for C7: `record["nonexistent"]` and `record[2.5]` on the
record `<Record x=1>`. -/
theorem record_lookup_error_kinds_witness :
    (Record.mk (["x"]) ([1]) : Record Nat).getitem (RecIndex.name ("nonexistent")) =
      .error (.fieldNotFound ("nonexistent")) ∧
    (Record.mk (["x"]) ([1]) : Record Nat).getattr ("nonexistent") =
      .error (.fieldNotFound ("nonexistent")) ∧
    (Record.mk (["x"]) ([1]) : Record Nat).getitem RecIndex.other =
      .error .indexTypeError :=
  record_lookup_error_kinds (Record.mk (["x"]) ([1])) ("nonexistent") (by decide)

/-- Claim C8: on a Record with unique field names and matching value
count, for a position `i` in range carrying field name `n`, lookup by
integer position `record[i]`, by field name `record[n]`, and
attribute-style `record.n` all return the same value — the one stored at
position `i`. -/
theorem record_lookup_agreement {V : Type} (r : Record V) (i : Nat) (n : String)
    (hnd : r.fields.Nodup)
    (hlen : r.values.length = r.fields.length)
    (hn : r.fields[i]? = some n) :
    ∃ v : V, r.values[i]? = some v ∧
      r.getitem (RecIndex.pos (i : Int)) = .ok v ∧
      r.getitem (RecIndex.name n) = .ok v ∧
      r.getattr n = .ok v := by
  obtain ⟨v, hv, hattr⟩ := Record.getattr_of_nodup hnd hn hlen
  have hpy : pyListGet r.fields (i : Int) = some n := by
    simp [pyListGet, hn]
  exact ⟨v, hv, by simp [Record.getitem, hpy, hattr], hattr, hattr⟩

/-- Witness for C8 on the record `<Record x=10 y=20>` at position 1. -/
theorem record_lookup_agreement_witness :
    ∃ v : Nat,
      (Record.mk (["x", "y"]) ([10, 20]) : Record Nat).values[1]? = some v ∧
      (Record.mk (["x", "y"]) ([10, 20]) : Record Nat).getitem
        (RecIndex.pos ((1 : Nat) : Int)) = .ok v ∧
      (Record.mk (["x", "y"]) ([10, 20]) : Record Nat).getitem
        (RecIndex.name ("y")) = .ok v ∧
      (Record.mk (["x", "y"]) ([10, 20]) : Record Nat).getattr ("y") = .ok v :=
  record_lookup_agreement (Record.mk (["x", "y"]) ([10, 20])) 1 ("y")
    (by decide) rfl rfl

/-- Claim C10: on a Record with unique field names and matching value
count, lookup at a negative position `-k` with `1 ≤ k ≤ field count`
does not fail: it returns the value of the k-th field counted from the
end (`record[-1]` is the last field's value), mirroring lookup at
position `field count − k`. -/
theorem record_negative_index {V : Type} (r : Record V) (k : Nat)
    (hnd : r.fields.Nodup)
    (hlen : r.values.length = r.fields.length)
    (hk1 : 1 ≤ k) (hk2 : k ≤ r.fields.length) :
    ∃ v : V, r.values[r.fields.length - k]? = some v ∧
      r.getitem (RecIndex.pos (-(k : Int))) = .ok v ∧
      r.getitem (RecIndex.pos ((r.fields.length - k : Nat) : Int)) = .ok v := by
  have hj : r.fields.length - k < r.fields.length := by omega
  have hn : r.fields[r.fields.length - k]? =
      some (r.fields[r.fields.length - k]) := List.getElem?_eq_getElem hj
  obtain ⟨v, hv, hattr⟩ := Record.getattr_of_nodup hnd hn hlen
  have h1 : ¬ (0 ≤ -(k : Int)) := by omega
  have h2 : (0 : Int) ≤ (r.fields.length : Int) + -(k : Int) := by omega
  have h3 : ((r.fields.length : Int) + -(k : Int)).toNat = r.fields.length - k := by
    omega
  have hneg : pyListGet r.fields (-(k : Int)) =
      some (r.fields[r.fields.length - k]) := by
    simp [pyListGet, h1, h2, h3, hn]
  have hpos : pyListGet r.fields ((r.fields.length - k : Nat) : Int) =
      some (r.fields[r.fields.length - k]) := by
    simp [pyListGet, hn]
  exact ⟨v, hv, by simp [Record.getitem, hneg, hattr],
    by simp [Record.getitem, hpos, hattr]⟩

/-- Witness for C10: `record[-1]` on `<Record x=10 y=20>` returns 20,
like `record[1]`. -/
theorem record_negative_index_witness :
    ∃ v : Nat,
      (Record.mk (["x", "y"]) ([10, 20]) : Record Nat).values[
        (Record.mk (["x", "y"]) ([10, 20]) : Record Nat).fields.length - 1]? = some v ∧
      (Record.mk (["x", "y"]) ([10, 20]) : Record Nat).getitem
        (RecIndex.pos (-((1 : Nat) : Int))) = .ok v ∧
      (Record.mk (["x", "y"]) ([10, 20]) : Record Nat).getitem
        (RecIndex.pos (((Record.mk (["x", "y"]) ([10, 20]) :
          Record Nat).fields.length - 1 : Nat) : Int)) = .ok v :=
  record_negative_index (Record.mk (["x", "y"]) ([10, 20])) 1
    (by decide) rfl (by decide) (by decide)

end Neo4j
